import Mathlib

/-! GPIO27 LED platform driver (`mgpio.c`).

A shallow embedding of the driver's two lifecycle callbacks, `gpio27_probe`
(bind) and `gpio27_remove` (unbind), of its single piece of mutable state, the
file-scope pointer `gpio_led`, and of its compatibility table `gpio27_dt_ids`.

The driver talks to the kernel's GPIO consumer interface (`gpiod_get`,
`gpiod_set_value`, `gpiod_put`).  The callbacks are embedded over an arbitrary
implementation of that interface (`GpioLib`), and every call they issue is
recorded in a trace.  A concrete line provider (`gpiolib`) follows the
specification's description of the Line Acquirer and is used wherever a
property speaks about line levels or line ownership.
-/

namespace Mgpio

/-! ## Machine integers and error pointers -/

/-- Number of values of an `unsigned long` (and of a pointer) on the 64-bit target. -/
def ULONG_MOD : Nat := 2 ^ 64

/-- Largest errno value that can be encoded in a pointer. -/
def MAX_ERRNO : Nat := 4095

/-- Errno: no such entry. -/
def ENOENT : Int := 2

/-- Errno: resource busy. -/
def EBUSY : Int := 16

/-- Modelled from the spec: the macro `IS_ERR` (kernel header, not part of the
sources) is the "distinguished invalid-pointer value" check; a pointer is an
error pointer when, as an unsigned long, it is at least `(unsigned long)-MAX_ERRNO`. -/
def IS_ERR (ptr : Nat) : Bool :=
  decide (ULONG_MOD - MAX_ERRNO ≤ ptr % ULONG_MOD)

/-- Modelled from the spec: the macro `PTR_ERR` (kernel header, not part of the
sources) reads a pointer as a signed `long`. -/
def PTR_ERR (ptr : Nat) : Int :=
  if ptr % ULONG_MOD < 2 ^ 63 then ((ptr % ULONG_MOD : Nat) : Int)
  else ((ptr % ULONG_MOD : Nat) : Int) - (ULONG_MOD : Int)

/-- Modelled from the spec: the macro `ERR_PTR` (kernel header, not part of the
sources) encodes a signed `long` error code as a pointer. -/
def ERR_PTR (error : Int) : Nat :=
  (error % (ULONG_MOD : Int)).toNat

/-- Conversion of a `long` to the `int` return type of the callbacks (truncation to 32 bits). -/
def long_to_int (x : Int) : Int :=
  if x % 2 ^ 32 < 2 ^ 31 then x % 2 ^ 32 else x % 2 ^ 32 - 2 ^ 32

/-! ## Data model -/

/-- Modelled from the spec: `enum gpiod_flags` (kernel header, not part of the
sources); the initial configuration requested at acquisition. -/
inductive gpiod_flags where
  | GPIOD_ASIS
  | GPIOD_IN
  | GPIOD_OUT_LOW
  | GPIOD_OUT_HIGH
deriving DecidableEq, Repr

/-- The output level an acquisition flag initialises the line to, if it configures an output. -/
def gpiod_flags.initial_level : gpiod_flags → Option Nat
  | .GPIOD_OUT_LOW => some 0
  | .GPIOD_OUT_HIGH => some 1
  | _ => none

/-- Modelled from the spec: `struct device` (kernel header, not part of the
sources), reduced to the hardware description it carries: the compatibility
identifier of its node and the GPIO lines the node lists, each under a logical
name and given by the address of its line descriptor. -/
structure device where
  compatible : String
  gpios : List (String × Nat)
deriving DecidableEq, Repr

/-- Modelled from the spec: `struct platform_device` (kernel header, not part of
the sources); the callbacks only use its embedded `dev`. -/
structure platform_device where
  dev : device
deriving DecidableEq, Repr

/-- Modelled from the spec: `struct of_device_id` (kernel header, not part of
the sources), an (identifier, opaque tag) pair. -/
structure of_device_id where
  compatible : String
  data : Nat
deriving DecidableEq, Repr

/-- The compatibility table: `{ .compatible = "rpi,gpio27-led" }, { }`. -/
def gpio27_dt_ids : List of_device_id :=
  [⟨"rpi,gpio27-led", 0⟩, ⟨"", 0⟩]

/-- Modelled from the spec: the registration subsystem's scan of a compatibility
table (not part of the sources): entries are visited in order up to the first
empty (sentinel) entry, and an identifier matches an entry by equality. -/
def of_match_scan : List of_device_id → String → Bool
  | [], _ => false
  | e :: rest, s =>
    if e.compatible = "" then false
    else if e.compatible = s then true
    else of_match_scan rest s

/-! ## The GPIO consumer interface and the call trace -/

/-- One call issued by the driver to the GPIO consumer interface.  For
`gpiod_get` the returned pointer is recorded as well. -/
inductive Call where
  | gpiod_get (dev : device) (con_id : String) (flags : gpiod_flags) (ret : Nat)
  | gpiod_set_value (desc : Nat) (value : Int)
  | gpiod_put (desc : Nat)
deriving DecidableEq, Repr

/-- An implementation of the GPIO consumer interface over a world `W`. -/
structure GpioLib (W : Type) where
  gpiod_get : device → String → gpiod_flags → W → Nat × W
  gpiod_set_value : Nat → Int → W → W
  gpiod_put : Nat → W → W

/-- Severity of a diagnostic record. -/
inductive LogLevel where
  | err
  | info
deriving DecidableEq, Repr

/-- Program state: the file-scope variable `gpio_led`, the world behind the GPIO
interface, the trace of calls issued so far and the diagnostic log. -/
structure State (W : Type) where
  gpio_led : Nat
  world : W
  trace : List Call
  dmesg : List (LogLevel × String)

/-- State at module load: `static struct gpio_desc *gpio_led` is zero-initialised (NULL). -/
def State.init {W : Type} (w : W) : State W :=
  { gpio_led := 0, world := w, trace := [], dmesg := [] }

/-- Call `gpiod_get` and record the call. -/
def call_gpiod_get {W : Type} (K : GpioLib W) (dev : device) (con_id : String)
    (flags : gpiod_flags) (s : State W) : Nat × State W :=
  let r := K.gpiod_get dev con_id flags s.world
  (r.1, { s with world := r.2, trace := s.trace ++ [Call.gpiod_get dev con_id flags r.1] })

/-- Call `gpiod_set_value` and record the call. -/
def call_gpiod_set_value {W : Type} (K : GpioLib W) (desc : Nat) (value : Int)
    (s : State W) : State W :=
  { s with world := K.gpiod_set_value desc value s.world,
           trace := s.trace ++ [Call.gpiod_set_value desc value] }

/-- Call `gpiod_put` and record the call. -/
def call_gpiod_put {W : Type} (K : GpioLib W) (desc : Nat) (s : State W) : State W :=
  { s with world := K.gpiod_put desc s.world, trace := s.trace ++ [Call.gpiod_put desc] }

/-- Diagnostic `dev_err`. -/
def dev_err {W : Type} (_dev : device) (msg : String) (s : State W) : State W :=
  { s with dmesg := s.dmesg ++ [(LogLevel.err, msg)] }

/-- Diagnostic `pr_info`. -/
def pr_info {W : Type} (msg : String) (s : State W) : State W :=
  { s with dmesg := s.dmesg ++ [(LogLevel.info, msg)] }

/-! ## The driver callbacks -/

/-- Bind callback `gpio27_probe`: returns the `int` result and the new state. -/
def gpio27_probe {W : Type} (K : GpioLib W) (pdev : platform_device) (s : State W) :
    Int × State W :=
  let dev := pdev.dev
  let r := call_gpiod_get K dev "led" gpiod_flags.GPIOD_OUT_LOW s
  let s1 : State W := { r.2 with gpio_led := r.1 }
  if IS_ERR s1.gpio_led then
    let s2 := dev_err dev "Failed to get GPIO\n" s1
    (long_to_int (PTR_ERR s2.gpio_led), s2)
  else
    let s2 := call_gpiod_set_value K s1.gpio_led 1 s1
    let s3 := pr_info "GPIO27 LED driver loaded - LED ON\n" s2
    (0, s3)

/-- Unbind callback `gpio27_remove`: returns the `int` result and the new state. -/
def gpio27_remove {W : Type} (K : GpioLib W) (_pdev : platform_device) (s : State W) :
    Int × State W :=
  let s1 := call_gpiod_set_value K s.gpio_led 0 s
  let s2 := call_gpiod_put K s1.gpio_led s1
  let s3 := pr_info "GPIO27 LED driver unloaded - LED OFF\n" s2
  (0, s3)

/-! ## A concrete line provider -/

/-- State of one GPIO line: whether it is owned by a consumer, whether it is
configured as an output, and its level (0 inactive, 1 active). -/
structure gpio_desc where
  requested : Bool
  is_out : Bool
  level : Nat
deriving DecidableEq, Repr

/-- World of the concrete line provider: the line behind each descriptor
address, and a flag raised when the interface is used outside its contract
(level set or release on a handle that is not owned). -/
structure World where
  line : Nat → Option gpio_desc
  ub : Bool

/-- A descriptor address is a usable pointer: neither NULL nor in the error range. -/
def valid_ptr (d : Nat) : Bool :=
  decide (d ≠ 0) && decide (d < ULONG_MOD - MAX_ERRNO)

/-- The line behind a handle, if the handle is a usable pointer to a line. -/
def World.lookup (w : World) (d : Nat) : Option gpio_desc :=
  if valid_ptr d then w.line d else none

/-- Replace the state of the line at address `d`. -/
def World.set_line (w : World) (d : Nat) (l : gpio_desc) : World :=
  { w with line := fun a => if a = d then some l else w.line a }

/-- The lines a logical name resolves to in a hardware description. -/
def resolve (dev : device) (con_id : String) : List Nat :=
  (dev.gpios.filter (fun e => e.1 == con_id)).map Prod.snd

/-- Line state after the configuration requested by the acquisition flags. -/
def configure (flags : gpiod_flags) (l : gpio_desc) : gpio_desc :=
  match flags with
  | .GPIOD_ASIS => { l with requested := true }
  | .GPIOD_IN => { l with requested := true, is_out := false }
  | .GPIOD_OUT_LOW => { requested := true, is_out := true, level := 0 }
  | .GPIOD_OUT_HIGH => { requested := true, is_out := true, level := 1 }

/-- Modelled from the spec: the Line Acquirer's `acquire` (the kernel's
`gpiod_get`, not part of the sources).  The logical name must resolve to exactly
one line of the description; with zero or several matches the acquisition fails
(`-ENOENT`), and when the line is already owned it fails (`-EBUSY`).  On success
the line is owned, configured as requested, and its descriptor address is the
handle. -/
def World.gpiod_get (dev : device) (con_id : String) (flags : gpiod_flags) (w : World) :
    Nat × World :=
  match resolve dev con_id with
  | [d] =>
    match w.lookup d with
    | some l =>
      if l.requested then (ERR_PTR (-EBUSY), w)
      else (d, w.set_line d (configure flags l))
    | none => (ERR_PTR (-ENOENT), w)
  | _ => (ERR_PTR (-ENOENT), w)

/-- Modelled from the spec: the Line Acquirer's `set_level` (the kernel's
`gpiod_set_value`, not part of the sources): sets the level of an owned line;
on any other handle the behaviour is undefined, recorded in `ub`. -/
def World.gpiod_set_value (desc : Nat) (value : Int) (w : World) : World :=
  match w.lookup desc with
  | some l =>
    if l.requested then w.set_line desc { l with level := if value = 0 then 0 else 1 }
    else { w with ub := true }
  | none => { w with ub := true }

/-- Modelled from the spec: the Line Acquirer's `release` (the kernel's
`gpiod_put`, not part of the sources): gives up ownership of an owned line, which
becomes available again; releasing a handle that is not owned is a caller bug,
recorded in `ub`. -/
def World.gpiod_put (desc : Nat) (w : World) : World :=
  match w.lookup desc with
  | some l =>
    if l.requested then w.set_line desc { l with requested := false }
    else { w with ub := true }
  | none => { w with ub := true }

/-- The concrete line provider. -/
def gpiolib : GpioLib World :=
  { gpiod_get := World.gpiod_get
    gpiod_set_value := World.gpiod_set_value
    gpiod_put := World.gpiod_put }

/-- Level of the line behind a handle. -/
def World.level (w : World) (d : Nat) : Option Nat :=
  (w.lookup d).map gpio_desc.level

/-- Whether the line behind a handle is currently owned. -/
def World.owned (w : World) (d : Nat) : Bool :=
  match w.lookup d with
  | some l => l.requested
  | none => false

/-- The pointer `gpiod_get` returns when bind is invoked for `pdev` in state `s`. -/
def acquire_result {W : Type} (K : GpioLib W) (pdev : platform_device) (s : State W) : Nat :=
  (K.gpiod_get pdev.dev "led" gpiod_flags.GPIOD_OUT_LOW s.world).1

/-- A world built from a finite table of lines, with no contract violation so far. -/
def World.ofList (ls : List (Nat × gpio_desc)) : World :=
  { line := fun a => (ls.find? (fun e => e.1 == a)).map Prod.snd, ub := false }

/-- Whether the "led" line of a description can be acquired in world `w`: the
name resolves to exactly one line, which exists and is not owned. -/
def World.available (w : World) (pdev : platform_device) : Bool :=
  match resolve pdev.dev "led" with
  | [d] => (w.lookup d).isSome && !w.owned d
  | _ => false

/-! ## Bind/unbind cycles -/

/-- Observation of one bind/unbind cycle: the two results, the pointer the
acquisition returned, and the state after the unbind. -/
structure Cycle (W : Type) where
  bind_ret : Int
  unbind_ret : Int
  handle : Nat
  after : State W

/-- Run one bind/unbind cycle per description, in order, from state `s`. -/
def run_cycles {W : Type} (K : GpioLib W) : List platform_device → State W → List (Cycle W)
  | [], _ => []
  | pdev :: rest, s =>
    { bind_ret := (gpio27_probe K pdev s).1
      unbind_ret := (gpio27_remove K pdev (gpio27_probe K pdev s).2).1
      handle := acquire_result K pdev s
      after := (gpio27_remove K pdev (gpio27_probe K pdev s).2).2 } ::
      run_cycles K rest (gpio27_remove K pdev (gpio27_probe K pdev s).2).2

/-! ## Sequences of lifecycle calls under the registration contract -/

/-- A lifecycle call made by the registration subsystem. -/
inductive Event where
  | bind (pdev : platform_device)
  | unbind (pdev : platform_device)
deriving DecidableEq, Repr

/-- One lifecycle call: the registration subsystem's list `bound` of currently
bound descriptions (bind succeeded, not yet unbound) and the driver state. -/
def reg_step {W : Type} (K : GpioLib W) (ev : Event) (bound : List platform_device)
    (s : State W) : List platform_device × State W :=
  match ev with
  | .bind pdev =>
    (if (gpio27_probe K pdev s).1 = 0 then pdev :: bound else bound, (gpio27_probe K pdev s).2)
  | .unbind pdev => (bound.erase pdev, (gpio27_remove K pdev s).2)

/-- Driver state after a sequence of lifecycle calls. -/
def exec {W : Type} (K : GpioLib W) : List Event → List platform_device → State W → State W
  | [], _, s => s
  | ev :: rest, bound, s => exec K rest (reg_step K ev bound s).1 (reg_step K ev bound s).2

/-- Each lifecycle call of a sequence, with the bound list and driver state it is made in. -/
def snapshots {W : Type} (K : GpioLib W) :
    List Event → List platform_device → State W → List (Event × List platform_device × State W)
  | [], _, _ => []
  | ev :: rest, bound, s =>
    (ev, bound, s) :: snapshots K rest (reg_step K ev bound s).1 (reg_step K ev bound s).2

/-- Registration contract at one call: bind only for a description matching the
compatibility table that is not currently bound; unbind only for a currently
bound description (so at most once per successful bind, never after a failed one). -/
def contract_at {W : Type} (x : Event × List platform_device × State W) : Bool :=
  match x.1 with
  | .bind pdev => of_match_scan gpio27_dt_ids pdev.dev.compatible && !x.2.1.contains pdev
  | .unbind pdev => x.2.1.contains pdev

/-- Single-instance restriction at one call: bind only while no description is bound. -/
def single_at {W : Type} (x : Event × List platform_device × State W) : Bool :=
  match x.1 with
  | .bind _ => x.2.1.isEmpty
  | .unbind _ => true

/-- Handles outstanding after a trace, starting from `held`: successfully
acquired and not released since. -/
def held_after : List Call → List Nat → List Nat
  | [], held => held
  | .gpiod_get _ _ _ ret :: cs, held => held_after cs (if IS_ERR ret then held else ret :: held)
  | .gpiod_set_value _ _ :: cs, held => held_after cs held
  | .gpiod_put d :: cs, held => held_after cs (held.erase d)

/-- Every release in the trace is on a handle outstanding at that point. -/
def release_ok : List Call → List Nat → Bool
  | [], _ => true
  | .gpiod_get _ _ _ ret :: cs, held => release_ok cs (if IS_ERR ret then held else ret :: held)
  | .gpiod_set_value _ _ :: cs, held => release_ok cs held
  | .gpiod_put d :: cs, held => held.contains d && release_ok cs (held.erase d)

/-- At a bind call (which issues the acquire), the controller holds no unreleased
handle: no handle it acquired earlier is still outstanding. -/
def acquire_at {W : Type} (x : Event × List platform_device × State W) : Bool :=
  match x.1 with
  | .bind _ => decide (held_after x.2.2.trace [] = [])
  | .unbind _ => true

/-- Invariant of single-instance runs: all releases so far were on outstanding
handles, and the outstanding handles are none when nothing is bound, and exactly
`gpio_led` when one description is bound. -/
def single_inv {W : Type} (bound : List platform_device) (s : State W) : Prop :=
  release_ok s.trace [] = true ∧
  ((bound = [] ∧ held_after s.trace [] = []) ∨
    (∃ p, bound = [p] ∧ held_after s.trace [] = [s.gpio_led]))

/-! ## Concrete inputs -/

/-- A matching description whose node lists one "led" line, at descriptor address 4096. -/
def pdev_led : platform_device :=
  ⟨⟨"rpi,gpio27-led", [("led", 4096)]⟩⟩

/-- A second matching description, with its "led" line at descriptor address 8192. -/
def pdev_led2 : platform_device :=
  ⟨⟨"rpi,gpio27-led", [("led", 8192)]⟩⟩

/-- A matching description whose node lists no "led" line. -/
def pdev_noline : platform_device :=
  ⟨⟨"rpi,gpio27-led", []⟩⟩

/-- A description with a foreign identifier and an available "led" line. -/
def pdev_foreign : platform_device :=
  ⟨⟨"acme,other-led", [("led", 4096)]⟩⟩

/-- A world with two free lines, at addresses 4096 and 8192. -/
def world0 : World :=
  World.ofList [(4096, ⟨false, false, 0⟩), (8192, ⟨false, false, 0⟩)]

/-! ## Error pointers -/

theorem IS_ERR_ERR_PTR (e : Int) (hlo : -(MAX_ERRNO : Int) ≤ e) (hhi : e < 0) :
    IS_ERR (ERR_PTR e) = true := by
  simp only [IS_ERR, ERR_PTR, ULONG_MOD, MAX_ERRNO] at *
  simp only [decide_eq_true_eq]
  omega

theorem PTR_ERR_ERR_PTR (e : Int) (hlo : -(MAX_ERRNO : Int) ≤ e) (hhi : e < 0) :
    PTR_ERR (ERR_PTR e) = e := by
  simp only [PTR_ERR, ERR_PTR, ULONG_MOD, MAX_ERRNO] at *
  split <;> omega

theorem long_to_int_errno (e : Int) (hlo : -(MAX_ERRNO : Int) ≤ e) (hhi : e < 0) :
    long_to_int e = e := by
  simp only [long_to_int, MAX_ERRNO] at *
  split <;> omega

/-! ## The callbacks, case by case -/

theorem gpio27_probe_err {W : Type} (K : GpioLib W) (pdev : platform_device) (s : State W)
    (h : IS_ERR (acquire_result K pdev s) = true) :
    gpio27_probe K pdev s =
      (long_to_int (PTR_ERR (acquire_result K pdev s)),
        { gpio_led := acquire_result K pdev s
          world := (K.gpiod_get pdev.dev "led" gpiod_flags.GPIOD_OUT_LOW s.world).2
          trace := s.trace ++ [Call.gpiod_get pdev.dev "led" gpiod_flags.GPIOD_OUT_LOW
            (acquire_result K pdev s)]
          dmesg := s.dmesg ++ [(LogLevel.err, "Failed to get GPIO\n")] }) := by
  simp only [acquire_result] at h
  simp [gpio27_probe, call_gpiod_get, dev_err, acquire_result, h]

theorem gpio27_probe_ok {W : Type} (K : GpioLib W) (pdev : platform_device) (s : State W)
    (h : IS_ERR (acquire_result K pdev s) = false) :
    gpio27_probe K pdev s =
      (0,
        { gpio_led := acquire_result K pdev s
          world := K.gpiod_set_value (acquire_result K pdev s) 1
            (K.gpiod_get pdev.dev "led" gpiod_flags.GPIOD_OUT_LOW s.world).2
          trace := s.trace ++ [Call.gpiod_get pdev.dev "led" gpiod_flags.GPIOD_OUT_LOW
            (acquire_result K pdev s)] ++ [Call.gpiod_set_value (acquire_result K pdev s) 1]
          dmesg := s.dmesg ++ [(LogLevel.info, "GPIO27 LED driver loaded - LED ON\n")] }) := by
  simp only [acquire_result] at h
  simp [gpio27_probe, call_gpiod_get, call_gpiod_set_value, pr_info, acquire_result, h]

theorem gpio27_remove_eq {W : Type} (K : GpioLib W) (pdev : platform_device) (s : State W) :
    gpio27_remove K pdev s =
      (0,
        { gpio_led := s.gpio_led
          world := K.gpiod_put s.gpio_led (K.gpiod_set_value s.gpio_led 0 s.world)
          trace := s.trace ++ [Call.gpiod_set_value s.gpio_led 0] ++ [Call.gpiod_put s.gpio_led]
          dmesg := s.dmesg ++ [(LogLevel.info, "GPIO27 LED driver unloaded - LED OFF\n")] }) := by
  simp [gpio27_remove, call_gpiod_set_value, call_gpiod_put, pr_info]

/-! ## The concrete line provider -/

theorem lookup_set_line_same (w : World) (d : Nat) (l : gpio_desc) (hd : valid_ptr d = true) :
    (w.set_line d l).lookup d = some l := by
  simp [World.lookup, World.set_line, hd]

theorem lookup_set_line_other (w : World) (d a : Nat) (l : gpio_desc) (ha : a ≠ d) :
    (w.set_line d l).lookup a = w.lookup a := by
  simp [World.lookup, World.set_line, ha]

theorem lookup_valid (w : World) (d : Nat) (l : gpio_desc) (h : w.lookup d = some l) :
    valid_ptr d = true := by
  unfold World.lookup at h
  split at h
  · assumption
  · cases h

theorem valid_ptr_not_err (d : Nat) (h : valid_ptr d = true) : IS_ERR d = false := by
  simp only [valid_ptr, IS_ERR, ULONG_MOD, MAX_ERRNO, Bool.and_eq_true, decide_eq_true_eq,
    decide_eq_false_iff_not] at *
  omega

/-- A successful acquisition resolved the name to exactly one free line and took it. -/
theorem gpiod_get_success (dev : device) (con_id : String) (flags : gpiod_flags) (w : World)
    (h : IS_ERR (World.gpiod_get dev con_id flags w).1 = false) :
    ∃ d l, resolve dev con_id = [d] ∧ w.lookup d = some l ∧ l.requested = false ∧
      World.gpiod_get dev con_id flags w = (d, w.set_line d (configure flags l)) := by
  have hbusy : IS_ERR (ERR_PTR (-EBUSY)) = true := by decide
  have hnoent : IS_ERR (ERR_PTR (-ENOENT)) = true := by decide
  unfold World.gpiod_get at h ⊢
  split at h
  · rename_i d hres
    split at h
    · rename_i l hl
      by_cases hr : l.requested = true
      · simp [hr, hbusy] at h
      · refine ⟨d, l, hres, hl, by simpa using hr, ?_⟩
        simp [hres, hl, hr]
    · simp [hnoent] at h
  · simp [hnoent] at h

theorem gpiod_set_value_owned (w : World) (d : Nat) (v : Int) (l : gpio_desc)
    (hl : w.lookup d = some l) (hr : l.requested = true) :
    World.gpiod_set_value d v w = w.set_line d { l with level := if v = 0 then 0 else 1 } := by
  simp [World.gpiod_set_value, hl, hr]

theorem gpiod_put_owned (w : World) (d : Nat) (l : gpio_desc)
    (hl : w.lookup d = some l) (hr : l.requested = true) :
    World.gpiod_put d w = w.set_line d { l with requested := false } := by
  simp [World.gpiod_put, hl, hr]

/-- World after a successful bind: the acquired line is owned, an output, at level 1. -/
theorem gpio27_probe_world (s : State World) (pdev : platform_device)
    (hacq : IS_ERR (acquire_result gpiolib pdev s) = false) :
    valid_ptr (acquire_result gpiolib pdev s) = true ∧
    resolve pdev.dev "led" = [acquire_result gpiolib pdev s] ∧
    s.world.owned (acquire_result gpiolib pdev s) = false ∧
    (gpio27_probe gpiolib pdev s).2.world =
      (s.world.set_line (acquire_result gpiolib pdev s) ⟨true, true, 0⟩).set_line
        (acquire_result gpiolib pdev s) ⟨true, true, 1⟩ := by
  rw [gpio27_probe_ok gpiolib pdev s hacq]
  obtain ⟨d, l, hr, hl, hfree, hget⟩ :=
    gpiod_get_success pdev.dev "led" gpiod_flags.GPIOD_OUT_LOW s.world hacq
  have hd : valid_ptr d = true := lookup_valid s.world d l hl
  have hres : acquire_result gpiolib pdev s = d := by
    simp [acquire_result, gpiolib, hget]
  rw [hres]
  refine ⟨hd, hr, by simp [World.owned, hl, hfree], ?_⟩
  show World.gpiod_set_value d 1 (World.gpiod_get pdev.dev "led" gpiod_flags.GPIOD_OUT_LOW
    s.world).2 = _
  rw [hget]
  show World.gpiod_set_value d 1 (s.world.set_line d ⟨true, true, 0⟩) = _
  rw [gpiod_set_value_owned _ d 1 ⟨true, true, 0⟩ (lookup_set_line_same _ _ _ hd) rfl]
  rfl

/-- World after an unbind issued while `gpio_led` is an owned line: the line is
released at level 0. -/
theorem gpio27_remove_world (s : State World) (pdev : platform_device) (l : gpio_desc)
    (hl : s.world.lookup s.gpio_led = some l) (hr : l.requested = true) :
    (gpio27_remove gpiolib pdev s).2.world =
      (s.world.set_line s.gpio_led ⟨l.requested, l.is_out, 0⟩).set_line s.gpio_led
        ⟨false, l.is_out, 0⟩ := by
  have hd : valid_ptr s.gpio_led = true := lookup_valid s.world _ l hl
  rw [gpio27_remove_eq]
  show World.gpiod_put s.gpio_led (World.gpiod_set_value s.gpio_led 0 s.world) = _
  rw [gpiod_set_value_owned s.world _ 0 l hl hr]
  simp only [if_true]
  rw [gpiod_put_owned _ _ ⟨l.requested, l.is_out, 0⟩ (lookup_set_line_same _ _ _ hd) hr]

/-- World and stored handle after a successful bind followed by unbind. -/
theorem bind_unbind_world (s : State World) (pdev : platform_device)
    (hacq : IS_ERR (acquire_result gpiolib pdev s) = false) :
    valid_ptr (acquire_result gpiolib pdev s) = true ∧
    (gpio27_remove gpiolib pdev (gpio27_probe gpiolib pdev s).2).2.gpio_led =
      acquire_result gpiolib pdev s ∧
    (gpio27_remove gpiolib pdev (gpio27_probe gpiolib pdev s).2).2.world =
      ((gpio27_probe gpiolib pdev s).2.world.set_line (acquire_result gpiolib pdev s)
        ⟨true, true, 0⟩).set_line (acquire_result gpiolib pdev s) ⟨false, true, 0⟩ ∧
    (gpio27_remove gpiolib pdev (gpio27_probe gpiolib pdev s).2).2.world.ub = s.world.ub := by
  obtain ⟨hd, _, _, hw⟩ := gpio27_probe_world s pdev hacq
  have hled : (gpio27_probe gpiolib pdev s).2.gpio_led = acquire_result gpiolib pdev s := by
    rw [gpio27_probe_ok gpiolib pdev s hacq]
  have hl : (gpio27_probe gpiolib pdev s).2.world.lookup (gpio27_probe gpiolib pdev s).2.gpio_led
      = some ⟨true, true, 1⟩ := by
    rw [hled, hw, lookup_set_line_same _ _ _ hd]
  have hrm := gpio27_remove_world (gpio27_probe gpiolib pdev s).2 pdev ⟨true, true, 1⟩ hl rfl
  rw [hled] at hrm
  refine ⟨hd, ?_, hrm, ?_⟩
  · rw [gpio27_remove_eq, gpio27_probe_ok gpiolib pdev s hacq]
  · rw [hrm, hw]; rfl

/-- A description whose line is available is one whose acquisition succeeds. -/
theorem available_acquire (s : State World) (pdev : platform_device)
    (h : s.world.available pdev = true) : IS_ERR (acquire_result gpiolib pdev s) = false := by
  unfold World.available at h
  split at h
  · rename_i d hres
    simp only [Bool.and_eq_true, Bool.not_eq_true', Option.isSome_iff_exists] at h
    obtain ⟨⟨l, hl⟩, hown⟩ := h
    have hreq : l.requested = false := by simpa [World.owned, hl] using hown
    have hget : World.gpiod_get pdev.dev "led" gpiod_flags.GPIOD_OUT_LOW s.world =
        (d, s.world.set_line d (configure gpiod_flags.GPIOD_OUT_LOW l)) := by
      simp [World.gpiod_get, hres, hl, hreq]
    show IS_ERR (World.gpiod_get pdev.dev "led" gpiod_flags.GPIOD_OUT_LOW s.world).1 = false
    rw [hget]
    exact valid_ptr_not_err d (lookup_valid s.world d l hl)
  · cases h

/-- A bind/unbind cycle leaves the existence and ownership of every line as it was. -/
theorem cycle_preserves_lines (s : State World) (pdev : platform_device)
    (hacq : IS_ERR (acquire_result gpiolib pdev s) = false) (a : Nat) :
    ((gpio27_remove gpiolib pdev (gpio27_probe gpiolib pdev s).2).2.world.lookup a).isSome =
      (s.world.lookup a).isSome ∧
    (gpio27_remove gpiolib pdev (gpio27_probe gpiolib pdev s).2).2.world.owned a =
      s.world.owned a := by
  obtain ⟨hd, _, hrm, _⟩ := bind_unbind_world s pdev hacq
  obtain ⟨_, _, hfree, hw⟩ := gpio27_probe_world s pdev hacq
  obtain ⟨d, l, _, hl, _, hget⟩ :=
    gpiod_get_success pdev.dev "led" gpiod_flags.GPIOD_OUT_LOW s.world hacq
  have hres : acquire_result gpiolib pdev s = d := by
    simp [acquire_result, gpiolib, hget]
  rw [hrm, hw]
  by_cases ha : a = acquire_result gpiolib pdev s
  · subst ha
    rw [World.owned, lookup_set_line_same _ _ _ hd, ← hfree]
    rw [hres, hl]
    simp
  · rw [World.owned, World.owned]
    simp only [lookup_set_line_other _ _ _ _ ha]
    simp

theorem cycle_preserves_available (s : State World) (pdev q : platform_device)
    (hacq : IS_ERR (acquire_result gpiolib pdev s) = false) :
    (gpio27_remove gpiolib pdev (gpio27_probe gpiolib pdev s).2).2.world.available q =
      s.world.available q := by
  unfold World.available
  split
  · rename_i d _
    rw [(cycle_preserves_lines s pdev hacq d).1, (cycle_preserves_lines s pdev hacq d).2]
  · rfl

/-- Every cycle of a run over available lines succeeds and ends with its line
released at level 0 and `gpio_led` still equal to the released handle. -/
theorem run_cycles_ok (devs : List platform_device) (s : State World)
    (hav : ∀ pdev ∈ devs, s.world.available pdev = true) :
    ∀ c ∈ run_cycles gpiolib devs s,
      c.bind_ret = 0 ∧ c.unbind_ret = 0 ∧ c.after.world.owned c.handle = false ∧
      c.after.world.level c.handle = some 0 ∧ c.after.gpio_led = c.handle ∧
      c.after.world.ub = s.world.ub := by
  induction devs generalizing s with
  | nil => intro c hc; cases hc
  | cons pdev rest ih =>
    intro c hc
    have hacq := available_acquire s pdev (hav pdev (List.mem_cons_self _ _))
    obtain ⟨hd, hled, hrm, hub⟩ := bind_unbind_world s pdev hacq
    simp only [run_cycles, List.mem_cons] at hc
    rcases hc with rfl | hc
    · refine ⟨?_, ?_, ?_, ?_, hled, hub⟩
      · show (gpio27_probe gpiolib pdev s).1 = 0
        rw [gpio27_probe_ok gpiolib pdev s hacq]
      · show (gpio27_remove gpiolib pdev (gpio27_probe gpiolib pdev s).2).1 = 0
        rw [gpio27_remove_eq]
      · show (gpio27_remove gpiolib pdev (gpio27_probe gpiolib pdev s).2).2.world.owned
          (acquire_result gpiolib pdev s) = false
        rw [hrm, World.owned, lookup_set_line_same _ _ _ hd]
      · show (gpio27_remove gpiolib pdev (gpio27_probe gpiolib pdev s).2).2.world.level
          (acquire_result gpiolib pdev s) = some 0
        rw [hrm, World.level, lookup_set_line_same _ _ _ hd]; rfl
    · have hav2 : ∀ q ∈ rest,
          (gpio27_remove gpiolib pdev (gpio27_probe gpiolib pdev s).2).2.world.available q
            = true := by
        intro q hq
        rw [cycle_preserves_available s pdev q hacq]
        exact hav q (List.mem_cons_of_mem _ hq)
      have h := ih _ hav2 c hc
      rw [hub] at h
      exact h

theorem run_cycles_length {W : Type} (K : GpioLib W) (devs : List platform_device)
    (s : State W) : (run_cycles K devs s).length = devs.length := by
  induction devs generalizing s with
  | nil => rfl
  | cons pdev rest ih => simp [run_cycles, ih]

/-! ## Traces and outstanding handles -/

theorem held_after_append (t u : List Call) (held : List Nat) :
    held_after (t ++ u) held = held_after u (held_after t held) := by
  induction t generalizing held with
  | nil => rfl
  | cons c cs ih => cases c <;> simp [held_after, ih]

theorem release_ok_append (t u : List Call) (held : List Nat) :
    release_ok (t ++ u) held = (release_ok t held && release_ok u (held_after t held)) := by
  induction t generalizing held with
  | nil => simp [release_ok, held_after]
  | cons c cs ih => cases c <;> simp [release_ok, held_after, ih, Bool.and_assoc]

theorem single_inv_step {W : Type} (K : GpioLib W) (ev : Event) (bound : List platform_device)
    (s : State W) (hinv : single_inv bound s) (hc : contract_at (ev, bound, s) = true)
    (hs : single_at (ev, bound, s) = true) :
    single_inv (reg_step K ev bound s).1 (reg_step K ev bound s).2 ∧
    acquire_at (ev, bound, s) = true := by
  obtain ⟨hrel, hheld⟩ := hinv
  cases ev with
  | bind pdev =>
    have hb : bound = [] := by simpa [single_at] using hs
    have hh : held_after s.trace [] = [] := by
      rcases hheld with ⟨_, h⟩ | ⟨p, hp, _⟩
      · exact h
      · rw [hb] at hp; cases hp
    refine ⟨?_, by simp [acquire_at, hh]⟩
    cases h : IS_ERR (acquire_result K pdev s)
    · simp only [reg_step, gpio27_probe_ok K pdev s h, if_true]
      refine ⟨?_, Or.inr ⟨pdev, by rw [hb], ?_⟩⟩
      · simp [release_ok_append, hrel, release_ok, h]
      · simp [held_after_append, hh, held_after, h]
    · have hne : long_to_int (PTR_ERR (acquire_result K pdev s)) ≠ 0 := by
        simp only [IS_ERR, PTR_ERR, long_to_int, ULONG_MOD, MAX_ERRNO, decide_eq_true_eq] at *
        split <;> split <;> omega
      simp only [reg_step, gpio27_probe_err K pdev s h, if_neg hne]
      refine ⟨?_, Or.inl ⟨hb, ?_⟩⟩
      · simp [release_ok_append, hrel, release_ok, h]
      · simp [held_after_append, hh, held_after, h]
  | unbind pdev =>
    have hmem : pdev ∈ bound := by simpa [contract_at] using hc
    refine ⟨?_, by simp [acquire_at]⟩
    rcases hheld with ⟨hb, _⟩ | ⟨p, hp, hh⟩
    · rw [hb] at hmem; cases hmem
    · have hpe : pdev = p := by rw [hp] at hmem; simpa using hmem
      simp only [reg_step, gpio27_remove_eq]
      refine ⟨?_, Or.inl ⟨by simp [hp, hpe], ?_⟩⟩
      · simp [release_ok_append, hrel, release_ok, held_after_append, held_after, hh]
      · simp [held_after_append, held_after, hh]

theorem single_inv_run {W : Type} (K : GpioLib W) (evs : List Event)
    (bound : List platform_device) (s : State W) (hinv : single_inv bound s)
    (hc : ∀ x ∈ snapshots K evs bound s, contract_at x = true)
    (hs : ∀ x ∈ snapshots K evs bound s, single_at x = true) :
    release_ok (exec K evs bound s).trace [] = true ∧
    ∀ x ∈ snapshots K evs bound s, acquire_at x = true := by
  induction evs generalizing bound s with
  | nil => exact ⟨hinv.1, by intro x hx; cases hx⟩
  | cons ev rest ih =>
    simp only [snapshots, List.mem_cons, forall_eq_or_imp] at hc hs
    obtain ⟨hstep, hacq⟩ := single_inv_step K ev bound s hinv hc.1 hs.1
    obtain ⟨h1, h2⟩ := ih _ _ hstep hc.2 hs.2
    refine ⟨h1, ?_⟩
    simp only [snapshots, List.mem_cons, forall_eq_or_imp]
    exact ⟨hacq, h2⟩

theorem IS_ERR_ret_ne_zero (p : Nat) (h : IS_ERR p = true) : long_to_int (PTR_ERR p) ≠ 0 := by
  simp only [IS_ERR, PTR_ERR, long_to_int, ULONG_MOD, MAX_ERRNO, decide_eq_true_eq] at *
  split <;> split <;> omega

/-! ## Bind -/

/-- C1: for every device whose "led" line acquisition succeeds, `gpio27_probe`
returns 0, the acquired line is owned and its output level afterwards is active
(1), and `gpio_led` is exactly the handle `gpiod_get` returned. -/
theorem gpio27_probe_bind_success (s : State World) (pdev : platform_device)
    (hacq : IS_ERR (acquire_result gpiolib pdev s) = false) :
    (gpio27_probe gpiolib pdev s).1 = 0 ∧
    (gpio27_probe gpiolib pdev s).2.world.level (acquire_result gpiolib pdev s) = some 1 ∧
    (gpio27_probe gpiolib pdev s).2.world.owned (acquire_result gpiolib pdev s) = true ∧
    (gpio27_probe gpiolib pdev s).2.gpio_led = acquire_result gpiolib pdev s := by
  obtain ⟨hd, _, _, hw⟩ := gpio27_probe_world s pdev hacq
  refine ⟨?_, ?_, ?_, ?_⟩
  · rw [gpio27_probe_ok gpiolib pdev s hacq]
  · rw [hw, World.level, lookup_set_line_same _ _ _ hd]; rfl
  · rw [hw, World.owned, lookup_set_line_same _ _ _ hd]
  · rw [gpio27_probe_ok gpiolib pdev s hacq]

/-- C1 at a concrete input: a free "led" line at address 4096. -/
theorem gpio27_probe_bind_success_witness :
    (gpio27_probe gpiolib pdev_led (State.init world0)).1 = 0 ∧
    (gpio27_probe gpiolib pdev_led (State.init world0)).2.world.level
      (acquire_result gpiolib pdev_led (State.init world0)) = some 1 ∧
    (gpio27_probe gpiolib pdev_led (State.init world0)).2.world.owned
      (acquire_result gpiolib pdev_led (State.init world0)) = true ∧
    (gpio27_probe gpiolib pdev_led (State.init world0)).2.gpio_led =
      acquire_result gpiolib pdev_led (State.init world0) :=
  gpio27_probe_bind_success (State.init world0) pdev_led (by decide)

/-- C2: for every device whose line acquisition fails with error `e`,
`gpio27_probe` returns exactly `e`, which is not 0, and the only call it issues
is the acquisition itself: no level is set on any line, and the world is left as
the acquirer left it. -/
theorem gpio27_probe_bind_failure {W : Type} (K : GpioLib W) (s : State W)
    (pdev : platform_device) (e : Int) (hlo : -(MAX_ERRNO : Int) ≤ e) (hhi : e < 0)
    (hacq : acquire_result K pdev s = ERR_PTR e) :
    (gpio27_probe K pdev s).1 = e ∧
    (gpio27_probe K pdev s).1 ≠ 0 ∧
    (gpio27_probe K pdev s).2.trace =
      s.trace ++ [Call.gpiod_get pdev.dev "led" gpiod_flags.GPIOD_OUT_LOW (ERR_PTR e)] ∧
    (gpio27_probe K pdev s).2.world =
      (K.gpiod_get pdev.dev "led" gpiod_flags.GPIOD_OUT_LOW s.world).2 := by
  have herr : IS_ERR (acquire_result K pdev s) = true := by
    rw [hacq]; exact IS_ERR_ERR_PTR e hlo hhi
  rw [gpio27_probe_err K pdev s herr, hacq, PTR_ERR_ERR_PTR e hlo hhi,
    long_to_int_errno e hlo hhi]
  exact ⟨rfl, by omega, rfl, rfl⟩

/-- C2 at a concrete input: a description without a "led" line fails with `-ENOENT`. -/
theorem gpio27_probe_bind_failure_witness :
    (gpio27_probe gpiolib pdev_noline (State.init world0)).1 = -2 ∧
    (gpio27_probe gpiolib pdev_noline (State.init world0)).1 ≠ 0 ∧
    (gpio27_probe gpiolib pdev_noline (State.init world0)).2.trace =
      (State.init world0).trace ++
        [Call.gpiod_get pdev_noline.dev "led" gpiod_flags.GPIOD_OUT_LOW (ERR_PTR (-2))] ∧
    (gpio27_probe gpiolib pdev_noline (State.init world0)).2.world =
      (gpiolib.gpiod_get pdev_noline.dev "led" gpiod_flags.GPIOD_OUT_LOW
        (State.init world0).world).2 :=
  gpio27_probe_bind_failure gpiolib (State.init world0) pdev_noline (-2) (by decide)
    (by decide) (by decide)

/-- C3, as stated, fails: from the initial state (`gpio_led` NULL) a bind whose
acquisition fails leaves `gpio_led` equal to the error pointer, not to NULL. -/
theorem gpio27_probe_failure_overwrites_gpio_led :
    IS_ERR (acquire_result gpiolib pdev_noline (State.init world0)) = true ∧
    (State.init world0).gpio_led = 0 ∧
    (gpio27_probe gpiolib pdev_noline (State.init world0)).2.gpio_led = 18446744073709551614 ∧
    (gpio27_probe gpiolib pdev_noline (State.init world0)).2.gpio_led ≠
      (State.init world0).gpio_led := by
  decide

/-- C3, amended: a failed bind retains no line handle: for every controller state
and every device whose line acquisition fails with error `e`, `gpio_led` after
`gpio27_probe` is the error pointer `ERR_PTR e` the acquirer returned, which
`IS_ERR` rejects as a handle. -/
theorem gpio27_probe_failure_stores_error {W : Type} (K : GpioLib W) (s : State W)
    (pdev : platform_device) (e : Int) (hlo : -(MAX_ERRNO : Int) ≤ e) (hhi : e < 0)
    (hacq : acquire_result K pdev s = ERR_PTR e) :
    (gpio27_probe K pdev s).2.gpio_led = ERR_PTR e ∧
    IS_ERR (gpio27_probe K pdev s).2.gpio_led = true := by
  have herr : IS_ERR (acquire_result K pdev s) = true := by
    rw [hacq]; exact IS_ERR_ERR_PTR e hlo hhi
  rw [gpio27_probe_err K pdev s herr, hacq]
  exact ⟨rfl, IS_ERR_ERR_PTR e hlo hhi⟩

/-- C3, amended, at a concrete input: a description without a "led" line. -/
theorem gpio27_probe_failure_stores_error_witness :
    (gpio27_probe gpiolib pdev_noline (State.init world0)).2.gpio_led = ERR_PTR (-2) ∧
    IS_ERR (gpio27_probe gpiolib pdev_noline (State.init world0)).2.gpio_led = true :=
  gpio27_probe_failure_stores_error gpiolib (State.init world0) pdev_noline (-2) (by decide)
    (by decide) (by decide)

/-! ## Unbind -/

/-- C4: after a successful bind that acquired handle `h`, `gpio27_remove` returns
0, leaves the line at level inactive (0) and releases `h`: the line is no longer
owned, and any description whose "led" name resolves to that line acquires it
again successfully.  No call was made outside the provider's contract. -/
theorem gpio27_remove_after_bind (s : State World) (pdev : platform_device)
    (hacq : IS_ERR (acquire_result gpiolib pdev s) = false) :
    (gpio27_remove gpiolib pdev (gpio27_probe gpiolib pdev s).2).1 = 0 ∧
    (gpio27_remove gpiolib pdev (gpio27_probe gpiolib pdev s).2).2.world.level
      (acquire_result gpiolib pdev s) = some 0 ∧
    (gpio27_remove gpiolib pdev (gpio27_probe gpiolib pdev s).2).2.world.owned
      (acquire_result gpiolib pdev s) = false ∧
    (gpio27_remove gpiolib pdev (gpio27_probe gpiolib pdev s).2).2.world.ub = s.world.ub ∧
    ∀ (dev : device) (flags : gpiod_flags), resolve dev "led" = [acquire_result gpiolib pdev s] →
      (gpiolib.gpiod_get dev "led" flags
        (gpio27_remove gpiolib pdev (gpio27_probe gpiolib pdev s).2).2.world).1 =
        acquire_result gpiolib pdev s := by
  obtain ⟨hd, _, hrm, hub⟩ := bind_unbind_world s pdev hacq
  refine ⟨?_, ?_, ?_, hub, ?_⟩
  · rw [gpio27_remove_eq]
  · rw [hrm, World.level, lookup_set_line_same _ _ _ hd]; rfl
  · rw [hrm, World.owned, lookup_set_line_same _ _ _ hd]
  · intro dev flags hres
    rw [hrm]
    show (World.gpiod_get dev "led" flags _).1 = _
    unfold World.gpiod_get
    rw [hres]
    simp only [lookup_set_line_same _ _ _ hd]
    simp

/-- C4 at a concrete input: bind and unbind of the line at address 4096. -/
theorem gpio27_remove_after_bind_witness :
    (gpio27_remove gpiolib pdev_led (gpio27_probe gpiolib pdev_led (State.init world0)).2).1 = 0 ∧
    (gpio27_remove gpiolib pdev_led
      (gpio27_probe gpiolib pdev_led (State.init world0)).2).2.world.level
      (acquire_result gpiolib pdev_led (State.init world0)) = some 0 ∧
    (gpio27_remove gpiolib pdev_led
      (gpio27_probe gpiolib pdev_led (State.init world0)).2).2.world.owned
      (acquire_result gpiolib pdev_led (State.init world0)) = false ∧
    (gpio27_remove gpiolib pdev_led
      (gpio27_probe gpiolib pdev_led (State.init world0)).2).2.world.ub =
      (State.init world0).world.ub ∧
    ∀ (dev : device) (flags : gpiod_flags),
      resolve dev "led" = [acquire_result gpiolib pdev_led (State.init world0)] →
      (gpiolib.gpiod_get dev "led" flags
        (gpio27_remove gpiolib pdev_led
          (gpio27_probe gpiolib pdev_led (State.init world0)).2).2.world).1 =
        acquire_result gpiolib pdev_led (State.init world0) :=
  gpio27_remove_after_bind (State.init world0) pdev_led (by decide)

/-- C5, as stated, fails: after bind and unbind from the initial state,
`gpio_led` still holds the released handle 4096 and differs from its initial
value NULL. -/
theorem gpio27_remove_keeps_gpio_led :
    (gpio27_probe gpiolib pdev_led (State.init world0)).1 = 0 ∧
    acquire_result gpiolib pdev_led (State.init world0) = 4096 ∧
    (gpio27_remove gpiolib pdev_led
      (gpio27_probe gpiolib pdev_led (State.init world0)).2).2.gpio_led = 4096 ∧
    (gpio27_remove gpiolib pdev_led
      (gpio27_probe gpiolib pdev_led (State.init world0)).2).2.gpio_led ≠
      (State.init world0).gpio_led := by
  decide

/-- C5, amended: unbind does not clear the stored handle: after `gpio27_remove`
returns from a Bound state, `gpio_led` is unchanged and still holds the handle
`h`, which the last call of the unbind, `gpiod_put(h)`, has just released. -/
theorem gpio27_remove_handle_unchanged {W : Type} (K : GpioLib W) (s : State W)
    (pdev : platform_device) (hacq : IS_ERR (acquire_result K pdev s) = false) :
    (gpio27_remove K pdev (gpio27_probe K pdev s).2).2.gpio_led = acquire_result K pdev s ∧
    (gpio27_remove K pdev (gpio27_probe K pdev s).2).2.gpio_led =
      (gpio27_probe K pdev s).2.gpio_led ∧
    (gpio27_remove K pdev (gpio27_probe K pdev s).2).2.trace.getLast? =
      some (Call.gpiod_put (acquire_result K pdev s)) := by
  rw [gpio27_remove_eq, gpio27_probe_ok K pdev s hacq]
  simp

/-- C5, amended, at a concrete input: bind and unbind of the line at address 4096. -/
theorem gpio27_remove_handle_unchanged_witness :
    (gpio27_remove gpiolib pdev_led (gpio27_probe gpiolib pdev_led (State.init world0)).2).2.gpio_led
      = acquire_result gpiolib pdev_led (State.init world0) ∧
    (gpio27_remove gpiolib pdev_led (gpio27_probe gpiolib pdev_led (State.init world0)).2).2.gpio_led
      = (gpio27_probe gpiolib pdev_led (State.init world0)).2.gpio_led ∧
    (gpio27_remove gpiolib pdev_led
      (gpio27_probe gpiolib pdev_led (State.init world0)).2).2.trace.getLast? =
      some (Call.gpiod_put (acquire_result gpiolib pdev_led (State.init world0))) :=
  gpio27_remove_handle_unchanged gpiolib (State.init world0) pdev_led (by decide)

/-! ## Call order -/

/-- C6: a successful bind issues exactly `gpiod_get(dev, "led", GPIOD_OUT_LOW)`
(an output initialised to level 0) followed by `gpiod_set_value(h, 1)` on the
handle `h` that `gpiod_get` returned, and the following unbind issues exactly
`gpiod_set_value(h, 0)` followed by `gpiod_put(h)` on that same `h`. -/
theorem gpio27_call_order {W : Type} (K : GpioLib W) (s : State W) (pdev : platform_device)
    (hacq : IS_ERR (acquire_result K pdev s) = false) :
    (gpio27_probe K pdev s).2.trace =
      s.trace ++ [Call.gpiod_get pdev.dev "led" gpiod_flags.GPIOD_OUT_LOW
          (acquire_result K pdev s),
        Call.gpiod_set_value (acquire_result K pdev s) 1] ∧
    gpiod_flags.GPIOD_OUT_LOW.initial_level = some 0 ∧
    (gpio27_remove K pdev (gpio27_probe K pdev s).2).2.trace =
      (gpio27_probe K pdev s).2.trace ++
        [Call.gpiod_set_value (acquire_result K pdev s) 0,
          Call.gpiod_put (acquire_result K pdev s)] := by
  rw [gpio27_remove_eq, gpio27_probe_ok K pdev s hacq]
  simp [gpiod_flags.initial_level]

/-- C6 at a concrete input: bind and unbind of the line at address 4096. -/
theorem gpio27_call_order_witness :
    (gpio27_probe gpiolib pdev_led (State.init world0)).2.trace =
      (State.init world0).trace ++ [Call.gpiod_get pdev_led.dev "led" gpiod_flags.GPIOD_OUT_LOW
          (acquire_result gpiolib pdev_led (State.init world0)),
        Call.gpiod_set_value (acquire_result gpiolib pdev_led (State.init world0)) 1] ∧
    gpiod_flags.GPIOD_OUT_LOW.initial_level = some 0 ∧
    (gpio27_remove gpiolib pdev_led (gpio27_probe gpiolib pdev_led (State.init world0)).2).2.trace =
      (gpio27_probe gpiolib pdev_led (State.init world0)).2.trace ++
        [Call.gpiod_set_value (acquire_result gpiolib pdev_led (State.init world0)) 0,
          Call.gpiod_put (acquire_result gpiolib pdev_led (State.init world0))] :=
  gpio27_call_order gpiolib (State.init world0) pdev_led (by decide)

/-! ## Identifier matching -/

/-- C7, as stated, fails: for a description whose identifier is not in the
compatibility table, `gpio27_probe` issues the acquire call, returns 0, stores
the handle and holds the line (state Bound). -/
theorem gpio27_probe_no_identifier_check :
    of_match_scan gpio27_dt_ids pdev_foreign.dev.compatible = false ∧
    (∀ e ∈ gpio27_dt_ids, e.compatible ≠ pdev_foreign.dev.compatible) ∧
    (gpio27_probe gpiolib pdev_foreign (State.init world0)).1 = 0 ∧
    (gpio27_probe gpiolib pdev_foreign (State.init world0)).2.trace =
      [Call.gpiod_get pdev_foreign.dev "led" gpiod_flags.GPIOD_OUT_LOW 4096,
        Call.gpiod_set_value 4096 1] ∧
    (gpio27_probe gpiolib pdev_foreign (State.init world0)).2.gpio_led = 4096 ∧
    (gpio27_probe gpiolib pdev_foreign (State.init world0)).2.world.owned 4096 = true := by
  decide

/-- C7, amended: `gpio27_probe` does not validate the identifier: for every
description, in particular one whose identifier is not in the compatibility
table, it issues the acquire call first, stores what the acquirer returned, and
returns 0 (state Bound) exactly when the acquisition succeeded. -/
theorem gpio27_probe_ignores_identifier {W : Type} (K : GpioLib W) (s : State W)
    (pdev : platform_device) :
    (∃ rest, (gpio27_probe K pdev s).2.trace =
      s.trace ++ Call.gpiod_get pdev.dev "led" gpiod_flags.GPIOD_OUT_LOW
        (acquire_result K pdev s) :: rest) ∧
    (gpio27_probe K pdev s).2.gpio_led = acquire_result K pdev s ∧
    ((gpio27_probe K pdev s).1 = 0 ↔ IS_ERR (acquire_result K pdev s) = false) := by
  cases h : IS_ERR (acquire_result K pdev s)
  · rw [gpio27_probe_ok K pdev s h]
    exact ⟨⟨[Call.gpiod_set_value (acquire_result K pdev s) 1], by simp⟩, rfl, by simp⟩
  · rw [gpio27_probe_err K pdev s h]
    exact ⟨⟨[], rfl⟩, rfl, by simpa using IS_ERR_ret_ne_zero _ h⟩

/-- C8: `gpio27_dt_ids` has two entries, the first with identifier
"rpi,gpio27-led" and the last the empty sentinel; the sentinel-terminated scan
matches an identifier exactly when it equals "rpi,gpio27-led", and never matches
the empty identifier. -/
theorem gpio27_dt_ids_match :
    gpio27_dt_ids.length = 2 ∧
    gpio27_dt_ids.head? = some ⟨"rpi,gpio27-led", 0⟩ ∧
    gpio27_dt_ids.getLast? = some ⟨"", 0⟩ ∧
    (∀ s : String, of_match_scan gpio27_dt_ids s = true ↔ s = "rpi,gpio27-led") ∧
    of_match_scan gpio27_dt_ids "" = false := by
  refine ⟨rfl, rfl, rfl, ?_, by decide⟩
  intro s
  have hne : ¬ ("rpi,gpio27-led" = "") := by decide
  simp only [gpio27_dt_ids, of_match_scan, if_neg hne, if_true]
  constructor
  · intro h
    by_cases hs : "rpi,gpio27-led" = s
    · exact hs.symm
    · simp [hs] at h
  · intro h
    simp [h]

/-! ## Repeated cycles -/

/-- C9, as stated, fails: after one bind/unbind cycle from the initial state both
calls returned 0 and the line is released at level 0, but the controller state
is not the initial one: `gpio_led` is 4096, initially NULL. -/
theorem run_cycles_not_initial :
    (run_cycles gpiolib [pdev_led] (State.init world0)).map
      (fun c => (c.bind_ret, c.unbind_ret, c.after.world.owned c.handle,
        c.after.world.level c.handle, c.after.gpio_led)) = [(0, 0, false, some 0, 4096)] ∧
    (State.init world0).gpio_led = 0 ∧
    ∀ c ∈ run_cycles gpiolib [pdev_led] (State.init world0),
      c.after.gpio_led ≠ (State.init world0).gpio_led := by
  decide

/-- C9, amended: for every N, starting from the initial state and running N
cycles of (bind with an available line; unbind), every bind and unbind returns 0
and after each unbind the line of that cycle is released with level inactive; the
controller then holds no owned line, `gpio_led` being the released handle of that
cycle rather than its initial value.  No call leaves the provider's contract. -/
theorem run_cycles_round_trip (devs : List platform_device) (w : World)
    (hav : ∀ pdev ∈ devs, w.available pdev = true) :
    (run_cycles gpiolib devs (State.init w)).length = devs.length ∧
    ∀ c ∈ run_cycles gpiolib devs (State.init w),
      c.bind_ret = 0 ∧ c.unbind_ret = 0 ∧ c.after.world.owned c.handle = false ∧
      c.after.world.level c.handle = some 0 ∧ c.after.gpio_led = c.handle ∧
      c.after.world.ub = w.ub :=
  ⟨run_cycles_length gpiolib devs (State.init w), run_cycles_ok devs (State.init w) hav⟩

/-- C9, amended, at a concrete input: three cycles over the lines at 4096, 8192, 4096. -/
theorem run_cycles_round_trip_witness :
    (run_cycles gpiolib [pdev_led, pdev_led2, pdev_led] (State.init world0)).length =
      [pdev_led, pdev_led2, pdev_led].length ∧
    ∀ c ∈ run_cycles gpiolib [pdev_led, pdev_led2, pdev_led] (State.init world0),
      c.bind_ret = 0 ∧ c.unbind_ret = 0 ∧ c.after.world.owned c.handle = false ∧
      c.after.world.level c.handle = some 0 ∧ c.after.gpio_led = c.handle ∧
      c.after.world.ub = world0.ub :=
  run_cycles_round_trip [pdev_led, pdev_led2, pdev_led] world0 (by decide)

/-! ## Handle ownership over sequences of lifecycle calls -/

/-- C10, as stated, fails: with two matching descriptions, the sequence bind,
bind, unbind, unbind obeys the registration contract at every call, yet the
second bind acquires while handle 4096 is still outstanding, and the second
unbind releases handle 8192 again, after it was already released. -/
theorem ownership_two_descriptions :
    (snapshots gpiolib
      [Event.bind pdev_led, Event.bind pdev_led2, Event.unbind pdev_led, Event.unbind pdev_led2]
      [] (State.init world0)).map contract_at = [true, true, true, true] ∧
    (snapshots gpiolib
      [Event.bind pdev_led, Event.bind pdev_led2, Event.unbind pdev_led, Event.unbind pdev_led2]
      [] (State.init world0)).map acquire_at = [true, false, true, true] ∧
    release_ok (exec gpiolib
      [Event.bind pdev_led, Event.bind pdev_led2, Event.unbind pdev_led, Event.unbind pdev_led2]
      [] (State.init world0)).trace [] = false ∧
    (exec gpiolib
      [Event.bind pdev_led, Event.bind pdev_led2, Event.unbind pdev_led, Event.unbind pdev_led2]
      [] (State.init world0)).trace =
      [Call.gpiod_get pdev_led.dev "led" gpiod_flags.GPIOD_OUT_LOW 4096,
        Call.gpiod_set_value 4096 1,
        Call.gpiod_get pdev_led2.dev "led" gpiod_flags.GPIOD_OUT_LOW 8192,
        Call.gpiod_set_value 8192 1,
        Call.gpiod_set_value 8192 0, Call.gpiod_put 8192,
        Call.gpiod_set_value 8192 0, Call.gpiod_put 8192] := by
  decide

/-- C10, amended: in every sequence of bind and unbind calls from the initial
state that obeys the registration contract and in which, in addition, bind is
called only while no description is bound, every release is issued on a handle
that an earlier acquire returned successfully and that has not been released
since, and at every bind call, which issues the acquire, no handle acquired
earlier is still outstanding. -/
theorem ownership_single_instance {W : Type} (K : GpioLib W) (w : W) (evs : List Event)
    (hc : ∀ x ∈ snapshots K evs [] (State.init w), contract_at x = true)
    (hs : ∀ x ∈ snapshots K evs [] (State.init w), single_at x = true) :
    release_ok (exec K evs [] (State.init w)).trace [] = true ∧
    ∀ x ∈ snapshots K evs [] (State.init w), acquire_at x = true :=
  single_inv_run K evs [] (State.init w) ⟨rfl, Or.inl ⟨rfl, rfl⟩⟩ hc hs

/-- C10, amended, at a concrete input: a failed bind, then two bind/unbind pairs. -/
theorem ownership_single_instance_witness :
    release_ok (exec gpiolib
      [Event.bind pdev_noline, Event.bind pdev_led, Event.unbind pdev_led,
        Event.bind pdev_led2, Event.unbind pdev_led2] [] (State.init world0)).trace [] = true ∧
    ∀ x ∈ snapshots gpiolib
      [Event.bind pdev_noline, Event.bind pdev_led, Event.unbind pdev_led,
        Event.bind pdev_led2, Event.unbind pdev_led2] [] (State.init world0),
      acquire_at x = true :=
  ownership_single_instance gpiolib world0
    [Event.bind pdev_noline, Event.bind pdev_led, Event.unbind pdev_led,
      Event.bind pdev_led2, Event.unbind pdev_led2] (by decide) (by decide)

end Mgpio
